import Mathlib

/-!
# Verification of the `cxx-async` cppcoro example (`examples/cppcoro/src/main.rs`)

This file embeds the Rust demonstration program shallowly in Lean and settles
the specification's claims about it.

## Modelling conventions

* `u32` and `usize` values are modelled as `Nat`, with `% 2 ^ 32` inserted
  where the Rust `u32` arithmetic wraps (the xorshift left shifts).
* Every `f64` value arising in this program is a nonnegative integer: the
  vector entries are `u32` values converted with `as f64` (exact, since
  `2 ^ 32 < 2 ^ 53`), products of two such values are integers below `2 ^ 64`,
  and sums of at most `16384` of them stay below `2 ^ 78`, far from overflow
  and from the subnormal range.  IEEE-754 `binary64` arithmetic on such values
  is exactly: compute the integer result, then round it to 53 significant bits
  with round-to-nearest, ties-to-even.  We therefore model an `f64` value by
  the natural number it denotes, and `+` / `*` by the exact operation followed
  by `round64`.
* The oneshot channel and polling adapter produced by `define_cxx_future!`
  live in the `cxx-async2` library, whose sources are not part of this
  repository snapshot; those parts are modelled from the spec and are marked
  `Modelled from the spec:` in their doc comments.  The same holds for the
  C++ half of the ping-pong recursion (`cppcoro_ping_pong`).
-/

namespace CppcoroExample

/-! ## The xorshift generator and the input vectors (from the source) -/

/-- Length of the two generated vectors (`const VECTOR_LENGTH: usize = 16384`). -/
def VECTOR_LENGTH : ℕ := 16384

/-- Split threshold of the recursive dot product (`const SPLIT_LIMIT: usize = 32`). -/
def SPLIT_LIMIT : ℕ := 32

/-- The seed installed by `Xorshift::new` (`state: 0x243f6a88`). -/
def xorshiftSeed : ℕ := 0x243f6a88

/-- One step of `Xorshift::next` on a `u32` state:
`x ^= x << 13; x ^= x >> 17; x ^= x << 5`, each `<<` wrapping modulo `2 ^ 32`. -/
def xorshiftStep (x : ℕ) : ℕ :=
  let a := Nat.xor x ((x * 2 ^ 13) % 2 ^ 32)
  let b := Nat.xor a (a / 2 ^ 17)
  Nat.xor b ((b * 2 ^ 5) % 2 ^ 32)

/-- The `n`-th output of the generator started from `xorshiftSeed`
(`output 0` is the initial state, `output 1` the first value returned by
`next`, and so on). -/
def output (n : ℕ) : ℕ := xorshiftStep^[n] xorshiftSeed

/-- The generation loop of the `VECTORS` initializer, parametrised by the
number of remaining iterations and the current generator state: each
iteration pushes one fresh output onto `vector_a` and the next one onto
`vector_b`.  The entries are the `u32` outputs; their `as f64` conversion is
exact, so the same numbers denote the `f64` vector entries. -/
def buildVectors : ℕ → ℕ → List ℕ × List ℕ
  | 0, _ => ([], [])
  | n + 1, s =>
    let x := xorshiftStep s
    let y := xorshiftStep x
    let rest := buildVectors n y
    (x :: rest.1, y :: rest.2)

/-- The lazily initialized global pair `(vector_a, vector_b)`. -/
def VECTORS : List ℕ × List ℕ := buildVectors VECTOR_LENGTH xorshiftSeed

/-! ## Exact model of IEEE-754 `binary64` arithmetic on nonnegative integers

`roundSpec` below is the textbook definition of rounding an integer to 53
significant bits (round-to-nearest, ties-to-even), phrased with `Nat.size`.
`round64` computes the same function using only the `Nat` operations that the
Lean kernel evaluates with GMP acceleration (no branching, no unbounded
recursion), so that the 16384-element dot product can be evaluated inside
proofs; `round64_eq_roundSpec` proves the two agree on every input this
program can produce. -/

/-- `0` if `x = 0`, `1` otherwise, built from truncated subtraction only. -/
def ind (x : ℕ) : ℕ := 1 - (1 - x)

/-- Weight `w` of a binary-search stage of the bit-length cascade: `w` if `x`
has more than `w` bits, else `0`. -/
def contrib (w x : ℕ) : ℕ := w * ind (x / 2 ^ w)

/-- Strip the top `w` bits from `x` if it has more than `w` bits. -/
def shed (w x : ℕ) : ℕ := x / 2 ^ contrib w x

/-- Bit length (`Nat.size`) of a number below `2 ^ 32`, computed as a
branchless binary-search cascade (`sizeCascade_eq_size`). -/
def sizeCascade (t : ℕ) : ℕ :=
  let t2 := shed 16 t
  let t3 := shed 8 t2
  let t4 := shed 4 t3
  let t5 := shed 2 t4
  let t6 := shed 1 t5
  contrib 16 t + contrib 8 t2 + contrib 4 t3 + contrib 2 t4 + contrib 1 t5 + t6

/-- The number of significant bits of `n` in excess of 53, i.e.
`Nat.size n - 53` for `n < 2 ^ 85` (`excess53_eq`): the cascade is applied to
`t = n / 2 ^ 53`, which has at most 32 bits. -/
def excess53 (n : ℕ) : ℕ := sizeCascade (n / 2 ^ 53)

/-- Round a nonnegative integer to 53 significant bits (round-to-nearest,
ties-to-even): exactly the value of the IEEE-754 `binary64` number nearest to
`n`, for every `n < 2 ^ 85` (all values in this program are below `2 ^ 79`).
Branchless form: with `k` excess bits, `q = n / 2 ^ k` and `r = n % 2 ^ k`,
adding `2 ^ (k - 1) - 1 + q % 2` before truncating to a multiple of `2 ^ k`
rounds up exactly when `r` exceeds half, or equals half with `q` odd. -/
def round64 (n : ℕ) : ℕ :=
  let k := excess53 n
  let half := 2 ^ k / 2
  let addon := (1 - (1 - k)) * (half - 1 + n / 2 ^ k % 2)
  (n + addon) / 2 ^ k * 2 ^ k

/-- Reference definition of round-to-nearest, ties-to-even at 53 significant
bits: keep the top 53 bits `q` of `n`, and round up exactly when the dropped
part `r` exceeds half of the dropped position's weight, or equals it with `q`
odd. -/
def roundSpec (n : ℕ) : ℕ :=
  let k := Nat.size n - 53
  if k = 0 then n
  else
    let q := n / 2 ^ k
    let r := n % 2 ^ k
    let half := 2 ^ (k - 1)
    if half < r ∨ (r = half ∧ q % 2 = 1) then (q + 1) * 2 ^ k else q * 2 ^ k

/-- `f64` addition of two nonnegative-integer-valued doubles. -/
def fadd (x y : ℕ) : ℕ := round64 (x + y)

/-- `f64` multiplication of two nonnegative-integer-valued doubles. -/
def fmul (x y : ℕ) : ℕ := round64 (x * y)

/-! ## The dot product (from the source) -/

/-- The inline base case of `dot_product`:
`range.clone().map(|index| a[index] * b[index]).sum()`, a left-to-right `f64`
fold starting from `0.0` (this is also exactly the claimed "single-threaded
direct left-to-right computation" of the dot product over `s..e`). -/
def dotRange (a b : List ℕ) (s e : ℕ) : ℕ :=
  (List.range' s (e - s)).foldl (fun acc i => fadd acc (fmul (a.getD i 0) (b.getD i 0))) 0

/-- `dot_product(range)` from the source: if the range length exceeds
`SPLIT_LIMIT` it splits at `mid = (start + end) / 2`, spawns the first half on
the thread pool, computes the second half inline, joins and returns
`first + second` (an `f64` addition); otherwise it computes the partial dot
product inline.  The value computed is independent of the scheduling, so the
embedding is the plain recursion. -/
def dot_product (a b : List ℕ) (s e : ℕ) : ℕ :=
  if h : SPLIT_LIMIT < e - s then
    let m := (s + e) / 2
    fadd (dot_product a b s m) (dot_product a b m e)
  else
    dotRange a b s e
termination_by e - s
decreasing_by
  · simp only [SPLIT_LIMIT] at h; omega
  · simp only [SPLIT_LIMIT] at h; omega

/-- `rust_dot_product` resolves to the dot product of the two generated
vectors over the full range `0..VECTOR_LENGTH`. -/
def rust_dot_product : ℕ := dot_product VECTORS.1 VECTORS.2 0 VECTOR_LENGTH

/-! ## Sequential recomputations used to evaluate the dot product

Evaluating `dot_product` directly on `VECTORS` re-traverses the lists at each
index, which is quadratic; the two definitions below compute the same values
in one pass that threads the generator state, and are *proved* equal to the
source-faithful definitions before being evaluated. -/

/-- Sum `len` consecutive products of freshly generated pairs onto `acc`,
returning the generator state after the chunk together with the sum.  The
`cond (Nat.beq a 0)` with two identical branches is semantically the
identity (`cond_identical` below); it only forces the accumulator to be
evaluated at each step when the definition is reduced inside a proof. -/
def chunkAux : ℕ → ℕ → ℕ → ℕ × ℕ
  | 0, s, acc => (s, acc)
  | len + 1, s, acc =>
    let x := xorshiftStep s
    let y := xorshiftStep x
    let a := fadd acc (fmul x y)
    cond (Nat.beq a 0) (chunkAux len y a) (chunkAux len y a)

/-- The balanced combination tree of `2 ^ j` consecutive 32-element chunk
sums, threading the generator state left to right (same evaluation-forcing
`cond` as in `chunkAux`). -/
def treeAux : ℕ → ℕ → ℕ × ℕ
  | 0, s => chunkAux 32 s 0
  | j + 1, s =>
    let p := treeAux j s
    let q := treeAux j p.1
    let v := fadd p.2 q.2
    cond (Nat.beq v 0) (q.1, v) (q.1, v)

/-! ## The oneshot channel and polling adapter (modelled from the spec)

The channel and the polling adapter of a future/sender pair are produced by
the `define_cxx_future!` macro of the `cxx-async2` library, whose sources
are not part of this repository snapshot (only the macro invocation and the
`ffi` declarations are, in `main.rs`).  The definitions in this section are
therefore modelled from the spec (sections 4.1, 4.2, 6 and 7).  Raw pointers
are modelled by the decoded payloads they point to, and a waker token by an
opaque number. -/

/-- Modelled from the spec: the state of the shared oneshot cell of a
future/sender pair (`define_cxx_future!` internals, not under `src/`):
empty, filled with a success value, failed with an error payload, or
consumed by a ready poll ("Transitions: Empty → {Filled(T) | Failed(E)} →
Consumed"). -/
inductive CellState (T : Type) where
  | empty : CellState T
  | filled : T → CellState T
  | failed : String → CellState T
  | consumed : CellState T
deriving DecidableEq

/-- Modelled from the spec: `channel` allocates the shared cell of a freshly
created future/sender pair; the cell starts empty ("No side effects beyond
allocation"). -/
def channel (T : Type) : CellState T := CellState.empty

/-- Modelled from the spec: `send(sender, status, value_ptr)` (not under
`src/`).  Status `0` (success-with-value) stores the pointed-to value,
status `1` (failure) stores the error payload; `value` and `errMsg` are the
two possible decodings of `value_ptr`.  `none` models a fatal contract
violation ("double-send is a fatal logic error, abort or panic-equivalent"):
the call never returns normally and no new cell state is produced. -/
def send {T : Type} (st : CellState T) (status : ℕ) (value : T) (errMsg : String) :
    Option (CellState T) :=
  match st, status with
  | CellState.empty, 0 => some (CellState.filled value)
  | CellState.empty, 1 => some (CellState.failed errMsg)
  | _, _ => none

/-- Modelled from the spec: the observable outcome of a successful `poll`
call — the returned status code, the decoded contents written to the result
buffer (a value for status 1, an error message for status 2), the waker
retained when pending, and the cell state after the call. -/
structure PollReturn (T : Type) where
  status : ℕ
  value : Option T
  error : Option String
  storedWaker : Option ℕ
  newState : CellState T
deriving DecidableEq

/-- Modelled from the spec: `poll(future, result_ptr, waker_ptr)` (not under
`src/`): on an empty cell it stores the waker and returns 0 (pending); on a
filled cell it writes the value to the result buffer, returns 1 and the cell
is consumed; on a failed cell it writes the error, returns 2 and the cell is
consumed; polling an already consumed future is a contract violation
(`none`). -/
def poll {T : Type} (st : CellState T) (waker : ℕ) : Option (PollReturn T) :=
  match st with
  | CellState.empty => some ⟨0, none, none, some waker, CellState.empty⟩
  | CellState.filled v => some ⟨1, some v, none, none, CellState.consumed⟩
  | CellState.failed m => some ⟨2, none, some m, none, CellState.consumed⟩
  | CellState.consumed => none

/-- The exception type of `cxx-async2` carried across the boundary, as
created by `CxxAsyncException::new(message)` and read back by `what()`. -/
structure CxxAsyncException where
  what : String
deriving DecidableEq

/-- The async body of `rust_not_product` (from the source): it immediately
returns `Err(CxxAsyncException::new("kapow".to_owned().into_boxed_str()))`;
the `f64` success type is modelled by `ℕ` as everywhere in this file. -/
def rust_not_product_body : Except CxxAsyncException ℕ :=
  Except.error ⟨"kapow"⟩

/-- Modelled from the spec: `RustFuture::from_fallible` completes the oneshot
from the wrapped body's result (not under `src/`): `Ok` sends status 0 with
the value, `Err` sends status 1 with the exception's message ("the foreign
completion handler calls a `send` operation with a status and a raw result
pointer"). -/
def completeFallible {T : Type} [Inhabited T] (body : Except CxxAsyncException T) :
    Option (CellState T) :=
  match body with
  | Except.ok v => send CellState.empty 0 v ""
  | Except.error e => send CellState.empty 1 default e.what

/-- Modelled from the spec: awaiting a future decodes the poll outcome into
the native idiom: status 1 resumes with the value, status 2 raises the
decoded exception carrying the original message ("never silently swallowed,
never left as a raw status code"); a pending poll suspends (`none` here). -/
def awaitDecode {T : Type} (st : CellState T) (waker : ℕ) :
    Option (Except CxxAsyncException T) :=
  match poll st waker with
  | some r =>
    if r.status = 1 then r.value.map Except.ok
    else if r.status = 2 then r.error.map (fun m => Except.error ⟨m⟩)
    else none
  | none => none

/-! ## The ping-pong recursion

The Rust half is from the source; the C++ half (`cppcoro_ping_pong` in
`cppcoro_example.cpp`) is not under `src/` and is modelled from the spec. -/

mutual

/-- The Rust half of the ping-pong (from the source): `go(i)` awaits the C++
side at `i + 1` while `i < 4`, and appends the token `"ping "` to the result
(`format!("{}ping ", ...)`); the value of the future returned by
`rust_cppcoro_ping_pong(i)`. -/
def rust_cppcoro_ping_pong (i : ℤ) : String :=
  (if h : i < 4 then cppcoro_ping_pong (i + 1) else "") ++ "ping "
termination_by (2 * (4 - i).toNat, 0)

/-- Modelled from the spec: the C++ half of the ping-pong
(`cppcoro_ping_pong`, not under `src/`).  The spec fixes the recursion as
"bounded at depth 4" with the output literal `"ping ping ping ping "` when
started at `i = 0`, so the C++ side calls back into the Rust entry point
while below the bound and contributes no token of its own. -/
def cppcoro_ping_pong (i : ℤ) : String :=
  if _h : i < 4 then rust_cppcoro_ping_pong i else ""
termination_by (2 * (4 - i).toNat, 1)

end

/-! ## Generic lemmas about the sequential recomputations -/

/-- A `cond` whose branches coincide is the identity. -/
theorem cond_identical {α : Type} (b : Bool) (x : α) : cond b x x = x := by
  cases b <;> rfl

/-- The forcing `cond` stripped from the step case of `chunkAux`. -/
theorem chunkAux_succ (len s acc : ℕ) :
    chunkAux (len + 1) s acc =
      chunkAux len (xorshiftStep (xorshiftStep s))
        (fadd acc (fmul (xorshiftStep s) (xorshiftStep (xorshiftStep s)))) := by
  simp only [chunkAux, cond_identical]

/-- The forcing `cond` stripped from the step case of `treeAux`. -/
theorem treeAux_succ (j s : ℕ) :
    treeAux (j + 1) s =
      ((treeAux j (treeAux j s).1).1, fadd (treeAux j s).2 (treeAux j (treeAux j s).1).2) := by
  simp only [treeAux, cond_identical]

/-- Splitting a chunk: summing `m + n` products is summing `m`, then `n` more
from the resulting state and accumulator. -/
theorem chunkAux_add (m n s acc : ℕ) :
    chunkAux (m + n) s acc = chunkAux n (chunkAux m s acc).1 (chunkAux m s acc).2 := by
  induction m generalizing s acc with
  | zero => simp [chunkAux]
  | succ m ih =>
    rw [Nat.succ_add, chunkAux_succ, chunkAux_succ, ih]

/-! ## The generated vectors are interleaved samples of one xorshift stream -/

/-- The generation loop produces two vectors of the requested length. -/
theorem buildVectors_length (n : ℕ) : ∀ s : ℕ,
    (buildVectors n s).1.length = n ∧ (buildVectors n s).2.length = n := by
  induction n with
  | zero => intro s; simp [buildVectors]
  | succ n ih =>
    intro s
    simp only [buildVectors, List.length_cons]
    constructor
    · rw [(ih _).1]
    · rw [(ih _).2]

/-- Entry `k` of the first vector is the `(2k+1)`-st generator output from the
starting state, and entry `k` of the second is the `(2k+2)`-nd. -/
theorem buildVectors_get (n : ℕ) : ∀ s k : ℕ, k < n →
    (buildVectors n s).1[k]? = some (xorshiftStep^[2 * k + 1] s) ∧
    (buildVectors n s).2[k]? = some (xorshiftStep^[2 * k + 2] s) := by
  induction n with
  | zero => intro s k h; omega
  | succ n ih =>
    intro s k h
    match k with
    | 0 =>
      refine ⟨?_, ?_⟩ <;> simp only [buildVectors, List.getElem?_cons_zero] <;> rfl
    | k + 1 =>
      have hk : k < n := by omega
      obtain ⟨h1, h2⟩ := ih (xorshiftStep (xorshiftStep s)) k hk
      simp only [buildVectors, List.getElem?_cons_succ]
      constructor
      · rw [h1]
        congr 1
      · rw [h2]
        congr 1

/-! ## The sequential recomputations match the source-faithful definitions -/

/-- The state threaded through a chunk advances by two generator steps per
element. -/
theorem chunkAux_state (l : ℕ) : ∀ st acc : ℕ,
    (chunkAux l st acc).1 = xorshiftStep^[2 * l] st := by
  induction l with
  | zero => intro st acc; simp [chunkAux]
  | succ l ih =>
    intro st acc
    rw [chunkAux_succ, ih,
      show 2 * (l + 1) = 2 * l + 2 from by omega, Function.iterate_add_apply]
    simp [Function.iterate_succ_apply, Function.iterate_one]

/-- The base-case fold of `dot_product` over the generated vectors, started
anywhere, is a sequential chunk computation from the matching generator
state. -/
theorem foldl_eq_chunk (n σ : ℕ) : ∀ l s acc : ℕ, s + l ≤ n →
    (List.range' s l).foldl
        (fun acc i =>
          fadd acc (fmul ((buildVectors n σ).1.getD i 0) ((buildVectors n σ).2.getD i 0))) acc
      = (chunkAux l (xorshiftStep^[2 * s] σ) acc).2 := by
  intro l
  induction l with
  | zero => intro s acc h; simp [chunkAux]
  | succ l ih =>
    intro s acc h
    rw [List.range'_succ, List.foldl_cons, chunkAux_succ]
    have hs : s < n := by omega
    obtain ⟨h1, h2⟩ := buildVectors_get n σ s hs
    have g1 : (buildVectors n σ).1.getD s 0 = xorshiftStep^[2 * s + 1] σ := by
      rw [List.getD_eq_getElem?_getD, h1, Option.getD_some]
    have g2 : (buildVectors n σ).2.getD s 0 = xorshiftStep^[2 * s + 2] σ := by
      rw [List.getD_eq_getElem?_getD, h2, Option.getD_some]
    have e1 : xorshiftStep (xorshiftStep^[2 * s] σ) = xorshiftStep^[2 * s + 1] σ :=
      (Function.iterate_succ_apply' xorshiftStep (2 * s) σ).symm
    have e2 : xorshiftStep (xorshiftStep^[2 * s + 1] σ) = xorshiftStep^[2 * s + 2] σ :=
      (Function.iterate_succ_apply' xorshiftStep (2 * s + 1) σ).symm
    rw [g1, g2, e1, e2, show 2 * s + 2 = 2 * (s + 1) from by omega]
    exact ih (s + 1) _ (by omega)

/-- `dotRange` over the generated vectors is the chunk computation. -/
theorem dotRange_eq_chunk (n σ s e : ℕ) (hs : s ≤ e) (he : e ≤ n) :
    dotRange (buildVectors n σ).1 (buildVectors n σ).2 s e
      = (chunkAux (e - s) (xorshiftStep^[2 * s] σ) 0).2 := by
  rw [dotRange]
  exact foldl_eq_chunk n σ (e - s) s 0 (by omega)

/-- The state threaded through a combination tree of depth `j` advances by
`64 * 2 ^ j` generator steps. -/
theorem treeAux_state (j : ℕ) : ∀ st : ℕ,
    (treeAux j st).1 = xorshiftStep^[64 * 2 ^ j] st := by
  induction j with
  | zero =>
    intro st
    rw [show (64 : ℕ) * 2 ^ 0 = 2 * 32 from by norm_num]
    exact chunkAux_state 32 st 0
  | succ j ih =>
    intro st
    rw [treeAux_succ]
    dsimp only
    rw [ih, ih, ← Function.iterate_add_apply]
    congr 1
    rw [pow_succ]
    ring

/-- `dot_product` over the generated vectors, on an aligned range of
`2 ^ j` 32-element blocks, is the depth-`j` combination tree started at the
matching generator state. -/
theorem dot_product_eq_tree (n σ : ℕ) : ∀ j a : ℕ, 32 * a + 32 * 2 ^ j ≤ n →
    dot_product (buildVectors n σ).1 (buildVectors n σ).2 (32 * a) (32 * a + 32 * 2 ^ j)
      = (treeAux j (xorshiftStep^[64 * a] σ)).2 := by
  intro j
  induction j with
  | zero =>
    intro a h
    have hc : ¬ (SPLIT_LIMIT < 32 * a + 32 * 2 ^ 0 - 32 * a) := by
      show ¬ (32 < 32 * a + 32 * 2 ^ 0 - 32 * a)
      simp only [pow_zero, Nat.mul_one]
      omega
    rw [dot_product, dif_neg hc,
      dotRange_eq_chunk n σ _ _ (by omega) (by omega),
      show 32 * a + 32 * 2 ^ 0 - 32 * a = 32 from by simp,
      show 2 * (32 * a) = 64 * a from by ring]
    rfl
  | succ j ih =>
    intro a h
    have h1 : 1 ≤ 2 ^ j := Nat.one_le_two_pow
    have hps : (2 : ℕ) ^ (j + 1) = 2 * 2 ^ j := by
      rw [pow_succ]
      ring
    have hc : SPLIT_LIMIT < 32 * a + 32 * 2 ^ (j + 1) - 32 * a := by
      show 32 < 32 * a + 32 * 2 ^ (j + 1) - 32 * a
      rw [hps]
      omega
    rw [dot_product, dif_pos hc]
    have hmid : (32 * a + (32 * a + 32 * 2 ^ (j + 1))) / 2 = 32 * (a + 2 ^ j) := by
      rw [hps]
      omega
    rw [hmid]
    dsimp only
    have hL : dot_product (buildVectors n σ).1 (buildVectors n σ).2 (32 * a) (32 * (a + 2 ^ j))
        = (treeAux j (xorshiftStep^[64 * a] σ)).2 := by
      rw [show 32 * (a + 2 ^ j) = 32 * a + 32 * 2 ^ j from by ring]
      exact ih a (by rw [hps] at h; omega)
    have hR : dot_product (buildVectors n σ).1 (buildVectors n σ).2 (32 * (a + 2 ^ j))
          (32 * a + 32 * 2 ^ (j + 1))
        = (treeAux j (xorshiftStep^[64 * (a + 2 ^ j)] σ)).2 := by
      rw [show 32 * a + 32 * 2 ^ (j + 1) = 32 * (a + 2 ^ j) + 32 * 2 ^ j from by
        rw [hps]; ring]
      exact ih (a + 2 ^ j) (by rw [hps] at h; omega)
    rw [hL, hR, treeAux_succ]
    dsimp only
    rw [treeAux_state, ← Function.iterate_add_apply,
      show 64 * 2 ^ j + 64 * a = 64 * (a + 2 ^ j) from by ring]

/-- The full parallel dot product is the 512-leaf combination tree from the
seed. -/
theorem rust_dot_product_eq_tree : rust_dot_product = (treeAux 9 xorshiftSeed).2 := by
  have h := dot_product_eq_tree 16384 xorshiftSeed 9 0 (by norm_num)
  simp only [Nat.mul_zero, Nat.zero_add, Function.iterate_zero_apply] at h
  rw [show (32 : ℕ) * 2 ^ 9 = 16384 from by norm_num] at h
  rw [rust_dot_product, VECTORS, VECTOR_LENGTH]
  exact h

/-- The full direct left-to-right dot product is the 16384-element chunk from
the seed. -/
theorem direct_dot_eq_chunk :
    dotRange VECTORS.1 VECTORS.2 0 VECTOR_LENGTH = (chunkAux 16384 xorshiftSeed 0).2 := by
  have h := dotRange_eq_chunk 16384 xorshiftSeed 0 16384 (by norm_num) (by norm_num)
  simp only [Nat.mul_zero, Nat.sub_zero, Function.iterate_zero_apply] at h
  rw [VECTORS, VECTOR_LENGTH]
  exact h

/-! ## Correctness of the branchless rounding -/

/-- Dividing out the low `w` bits of a number with more than `w` bits drops
its bit length by exactly `w`. -/
theorem size_div_pow (x w : ℕ) (h : 2 ^ w ≤ x) :
    Nat.size x = w + Nat.size (x / 2 ^ w) := by
  have hw : 0 < 2 ^ w := Nat.two_pow_pos w
  have h1 : 1 ≤ x / 2 ^ w := (Nat.one_le_div_iff hw).2 h
  have hs1 : 1 ≤ Nat.size (x / 2 ^ w) := Nat.size_pos.2 (by omega)
  have hub : x < 2 ^ (w + Nat.size (x / 2 ^ w)) := by
    have h2 : x / 2 ^ w < 2 ^ Nat.size (x / 2 ^ w) := Nat.lt_size_self _
    have h3 : x < 2 ^ Nat.size (x / 2 ^ w) * 2 ^ w := (Nat.div_lt_iff_lt_mul hw).1 h2
    rw [pow_add, Nat.mul_comm]
    exact h3
  have hlb : 2 ^ (w + Nat.size (x / 2 ^ w) - 1) ≤ x := by
    have h2 : 2 ^ (Nat.size (x / 2 ^ w) - 1) ≤ x / 2 ^ w := Nat.lt_size.1 (by omega)
    have h3 : 2 ^ (Nat.size (x / 2 ^ w) - 1) * 2 ^ w ≤ x := (Nat.le_div_iff_mul_le hw).1 h2
    calc 2 ^ (w + Nat.size (x / 2 ^ w) - 1) = 2 ^ (Nat.size (x / 2 ^ w) - 1) * 2 ^ w := by
          rw [← pow_add]; congr 1; omega
      _ ≤ x := h3
  have hA : Nat.size x ≤ w + Nat.size (x / 2 ^ w) := Nat.size_le.2 hub
  have hB : w + Nat.size (x / 2 ^ w) - 1 < Nat.size x := Nat.lt_size.2 hlb
  omega

/-- One stage of the cascade: it leaves a number of at most `w` bits and
accounts exactly for the stripped bits. -/
theorem cascadeStage (w x : ℕ) (h : x < 2 ^ (2 * w)) :
    shed w x < 2 ^ w ∧ Nat.size x = contrib w x + Nat.size (shed w x) := by
  have hw : 0 < 2 ^ w := Nat.two_pow_pos w
  rcases Nat.lt_or_ge x (2 ^ w) with hx | hx
  · have hdiv : x / 2 ^ w = 0 := Nat.div_eq_of_lt hx
    have hc : contrib w x = 0 := by simp [contrib, ind, hdiv]
    have hs : shed w x = x := by simp [shed, hc]
    rw [hc, hs]
    exact ⟨hx, by omega⟩
  · have h1 : 1 ≤ x / 2 ^ w := (Nat.one_le_div_iff hw).2 hx
    have hc : contrib w x = w := by
      have : ind (x / 2 ^ w) = 1 := by unfold ind; omega
      simp [contrib, this]
    have hs : shed w x = x / 2 ^ w := by rw [shed, hc]
    rw [hc, hs]
    constructor
    · apply Nat.div_lt_of_lt_mul
      rw [← pow_add]
      calc x < 2 ^ (2 * w) := h
        _ = 2 ^ (w + w) := by ring_nf
    · exact size_div_pow x w hx

/-- The cascade computes the bit length of every number below `2 ^ 32`. -/
theorem sizeCascade_eq_size (t : ℕ) (h : t < 2 ^ 32) :
    sizeCascade t = Nat.size t := by
  obtain ⟨l16, s16⟩ := cascadeStage 16 t (by norm_num at h ⊢; omega)
  obtain ⟨l8, s8⟩ := cascadeStage 8 (shed 16 t) (by norm_num at l16 ⊢; omega)
  obtain ⟨l4, s4⟩ := cascadeStage 4 (shed 8 (shed 16 t)) (by norm_num at l8 ⊢; omega)
  obtain ⟨l2, s2⟩ := cascadeStage 2 (shed 4 (shed 8 (shed 16 t))) (by norm_num at l4 ⊢; omega)
  obtain ⟨l1, s1⟩ := cascadeStage 1 (shed 2 (shed 4 (shed 8 (shed 16 t)))) (by norm_num at l2 ⊢; omega)
  have h6 : Nat.size (shed 1 (shed 2 (shed 4 (shed 8 (shed 16 t))))) =
      shed 1 (shed 2 (shed 4 (shed 8 (shed 16 t)))) := by
    have h01 : shed 1 (shed 2 (shed 4 (shed 8 (shed 16 t)))) = 0 ∨
        shed 1 (shed 2 (shed 4 (shed 8 (shed 16 t)))) = 1 := by
      norm_num at l1; omega
    rcases h01 with h0 | h0 <;> rw [h0]
    · exact Nat.size_zero
    · exact Nat.size_one
  simp only [sizeCascade]
  omega

/-- `excess53` computes the number of bits beyond 53, for all inputs this
program produces. -/
theorem excess53_eq (n : ℕ) (h : n < 2 ^ 85) : excess53 n = Nat.size n - 53 := by
  have ht : n / 2 ^ 53 < 2 ^ 32 := by
    apply Nat.div_lt_of_lt_mul
    norm_num at h ⊢
    omega
  rw [excess53, sizeCascade_eq_size _ ht]
  rcases Nat.lt_or_ge n (2 ^ 53) with hn | hn
  · have h0 : n / 2 ^ 53 = 0 := Nat.div_eq_of_lt hn
    have hs : Nat.size n ≤ 53 := Nat.size_le.2 hn
    rw [h0, Nat.size_zero]
    omega
  · have := size_div_pow n 53 hn
    omega

/-- The round-up addend trick: adding `half - 1 + (q % 2)` and truncating to
a multiple of `2 ^ k` rounds up exactly under the round-to-nearest,
ties-to-even condition. -/
theorem roundBranchless (k n : ℕ) (hk : 1 ≤ k) :
    (n + (2 ^ (k - 1) - 1 + n / 2 ^ k % 2)) / 2 ^ k * 2 ^ k =
      if 2 ^ (k - 1) < n % 2 ^ k ∨ n % 2 ^ k = 2 ^ (k - 1) ∧ n / 2 ^ k % 2 = 1 then
        (n / 2 ^ k + 1) * 2 ^ k
      else n / 2 ^ k * 2 ^ k := by
  have hP : 0 < 2 ^ k := Nat.two_pow_pos k
  have hPH : 2 ^ k = 2 * 2 ^ (k - 1) := by
    rw [← pow_succ']
    congr 1
    omega
  have hH1 : 1 ≤ 2 ^ (k - 1) := Nat.one_le_two_pow
  obtain ⟨q, r, hr, rfl⟩ : ∃ q r, r < 2 ^ k ∧ 2 ^ k * q + r = n :=
    ⟨n / 2 ^ k, n % 2 ^ k, Nat.mod_lt _ hP, Nat.div_add_mod n (2 ^ k)⟩
  have hdiv : (2 ^ k * q + r) / 2 ^ k = q := by
    rw [Nat.mul_add_div hP, Nat.div_eq_of_lt hr, Nat.add_zero]
  have hmod : (2 ^ k * q + r) % 2 ^ k = r := by
    rw [Nat.mul_add_mod, Nat.mod_eq_of_lt hr]
  rw [hdiv, hmod, Nat.add_assoc, Nat.mul_add_div hP]
  rcases Nat.mod_two_eq_zero_or_one q with h2 | h2 <;> rw [h2]
  · by_cases hlt : 2 ^ (k - 1) < r
    · have hd : (r + (2 ^ (k - 1) - 1 + 0)) / 2 ^ k = 1 :=
        Nat.div_eq_of_lt_le (by omega) (by omega)
      rw [if_pos (Or.inl hlt), hd]
    · have hd : (r + (2 ^ (k - 1) - 1 + 0)) / 2 ^ k = 0 := Nat.div_eq_of_lt (by omega)
      rw [if_neg (by omega), hd, Nat.add_zero]
  · by_cases hle : 2 ^ (k - 1) ≤ r
    · have hd : (r + (2 ^ (k - 1) - 1 + 1)) / 2 ^ k = 1 :=
        Nat.div_eq_of_lt_le (by omega) (by omega)
      rw [if_pos (by omega), hd]
    · have hd : (r + (2 ^ (k - 1) - 1 + 1)) / 2 ^ k = 0 := Nat.div_eq_of_lt (by omega)
      rw [if_neg (by omega), hd, Nat.add_zero]

/-- The branchless `round64` agrees with the reference round-to-nearest,
ties-to-even `roundSpec` on every number below `2 ^ 85`. -/
theorem round64_eq_roundSpec (n : ℕ) (h : n < 2 ^ 85) : round64 n = roundSpec n := by
  have hk := excess53_eq n h
  unfold round64 roundSpec
  rw [hk]
  dsimp only
  rcases Nat.eq_zero_or_pos (Nat.size n - 53) with hk0 | hkpos
  · rw [hk0]
    norm_num
  · rw [if_neg (by omega)]
    have h1 : (1 : ℕ) - (1 - (Nat.size n - 53)) = 1 := by omega
    have hPH : 2 ^ (Nat.size n - 53) = 2 * 2 ^ (Nat.size n - 53 - 1) := by
      rw [← pow_succ']
      congr 1
      omega
    have hhalf : 2 ^ (Nat.size n - 53) / 2 = 2 ^ (Nat.size n - 53 - 1) := by omega
    rw [h1, one_mul, hhalf]
    exact roundBranchless (Nat.size n - 53) n hkpos

/-! ### Machine-checked block evaluations of the two dot-product computations -/

set_option maxRecDepth 200000 in
set_option maxHeartbeats 20000000 in
theorem chunkBlock0 : chunkAux 512 608135816 0 = (2418066127, 2446937486868313276416) := by decide

set_option maxRecDepth 200000 in
set_option maxHeartbeats 20000000 in
theorem chunkBlock1 : chunkAux 512 2418066127 2446937486868313276416 = (363444670, 4614500850393020891136) := by decide

set_option maxRecDepth 200000 in
set_option maxHeartbeats 20000000 in
theorem chunkBlock2 : chunkAux 512 363444670 4614500850393020891136 = (4246376310, 6945839843332073717760) := by decide

set_option maxRecDepth 200000 in
set_option maxHeartbeats 20000000 in
theorem chunkBlock3 : chunkAux 512 4246376310 6945839843332073717760 = (3226651615, 9346069958375531085824) := by decide

set_option maxRecDepth 200000 in
set_option maxHeartbeats 20000000 in
theorem chunkBlock4 : chunkAux 512 3226651615 9346069958375531085824 = (1652164113, 11802934387529614360576) := by decide

set_option maxRecDepth 200000 in
set_option maxHeartbeats 20000000 in
theorem chunkBlock5 : chunkAux 512 1652164113 11802934387529614360576 = (3391804821, 14227297686151596343296) := by decide

set_option maxRecDepth 200000 in
set_option maxHeartbeats 20000000 in
theorem chunkBlock6 : chunkAux 512 3391804821 14227297686151596343296 = (2428635122, 16561143911701976973312) := by decide

set_option maxRecDepth 200000 in
set_option maxHeartbeats 20000000 in
theorem chunkBlock7 : chunkAux 512 2428635122 16561143911701976973312 = (2220782646, 19057119804243763527680) := by decide

set_option maxRecDepth 200000 in
set_option maxHeartbeats 20000000 in
theorem chunkBlock8 : chunkAux 512 2220782646 19057119804243763527680 = (3790497277, 21515821054882960375808) := by decide

set_option maxRecDepth 200000 in
set_option maxHeartbeats 20000000 in
theorem chunkBlock9 : chunkAux 512 3790497277 21515821054882960375808 = (377896964, 23844691323345453449216) := by decide

set_option maxRecDepth 200000 in
set_option maxHeartbeats 20000000 in
theorem chunkBlock10 : chunkAux 512 377896964 23844691323345453449216 = (585416949, 26218297169437635117056) := by decide

set_option maxRecDepth 200000 in
set_option maxHeartbeats 20000000 in
theorem chunkBlock11 : chunkAux 512 585416949 26218297169437635117056 = (3581083522, 28500338922467050389504) := by decide

set_option maxRecDepth 200000 in
set_option maxHeartbeats 20000000 in
theorem chunkBlock12 : chunkAux 512 3581083522 28500338922467050389504 = (564695229, 30863972938187454545920) := by decide

set_option maxRecDepth 200000 in
set_option maxHeartbeats 20000000 in
theorem chunkBlock13 : chunkAux 512 564695229 30863972938187454545920 = (736627605, 33256597186658372157440) := by decide

set_option maxRecDepth 200000 in
set_option maxHeartbeats 20000000 in
theorem chunkBlock14 : chunkAux 512 736627605 33256597186658372157440 = (2108258747, 35563876215998027661312) := by decide

set_option maxRecDepth 200000 in
set_option maxHeartbeats 20000000 in
theorem chunkBlock15 : chunkAux 512 2108258747 35563876215998027661312 = (3963586613, 37909033220611376152576) := by decide

set_option maxRecDepth 200000 in
set_option maxHeartbeats 20000000 in
theorem chunkBlock16 : chunkAux 512 3963586613 37909033220611376152576 = (3531047671, 40394860020879669067776) := by decide

set_option maxRecDepth 200000 in
set_option maxHeartbeats 20000000 in
theorem chunkBlock17 : chunkAux 512 3531047671 40394860020879669067776 = (4018324306, 42628182739216775512064) := by decide

set_option maxRecDepth 200000 in
set_option maxHeartbeats 20000000 in
theorem chunkBlock18 : chunkAux 512 4018324306 42628182739216775512064 = (3798140327, 44920690801746596855808) := by decide

set_option maxRecDepth 200000 in
set_option maxHeartbeats 20000000 in
theorem chunkBlock19 : chunkAux 512 3798140327 44920690801746596855808 = (1134582020, 47142570389970500976640) := by decide

set_option maxRecDepth 200000 in
set_option maxHeartbeats 20000000 in
theorem chunkBlock20 : chunkAux 512 1134582020 47142570389970500976640 = (2213346121, 49676873436308713766912) := by decide

set_option maxRecDepth 200000 in
set_option maxHeartbeats 20000000 in
theorem chunkBlock21 : chunkAux 512 2213346121 49676873436308713766912 = (3530997980, 52022411554707688390656) := by decide

set_option maxRecDepth 200000 in
set_option maxHeartbeats 20000000 in
theorem chunkBlock22 : chunkAux 512 3530997980 52022411554707688390656 = (3833678518, 54534632762972940795904) := by decide

set_option maxRecDepth 200000 in
set_option maxHeartbeats 20000000 in
theorem chunkBlock23 : chunkAux 512 3833678518 54534632762972940795904 = (1197616415, 56724294456751706603520) := by decide

set_option maxRecDepth 200000 in
set_option maxHeartbeats 20000000 in
theorem chunkBlock24 : chunkAux 512 1197616415 56724294456751706603520 = (2914196691, 59068849548530804588544) := by decide

set_option maxRecDepth 200000 in
set_option maxHeartbeats 20000000 in
theorem chunkBlock25 : chunkAux 512 2914196691 59068849548530804588544 = (444437534, 61456935734603551866880) := by decide

set_option maxRecDepth 200000 in
set_option maxHeartbeats 20000000 in
theorem chunkBlock26 : chunkAux 512 444437534 61456935734603551866880 = (2269139034, 63853083556910953660416) := by decide

set_option maxRecDepth 200000 in
set_option maxHeartbeats 20000000 in
theorem chunkBlock27 : chunkAux 512 2269139034 63853083556910953660416 = (2347327700, 66179341487438823424000) := by decide

set_option maxRecDepth 200000 in
set_option maxHeartbeats 20000000 in
theorem chunkBlock28 : chunkAux 512 2347327700 66179341487438823424000 = (4258737183, 68550473550219718950912) := by decide

set_option maxRecDepth 200000 in
set_option maxHeartbeats 20000000 in
theorem chunkBlock29 : chunkAux 512 4258737183 68550473550219718950912 = (228773363, 70938748956014091960320) := by decide

set_option maxRecDepth 200000 in
set_option maxHeartbeats 20000000 in
theorem chunkBlock30 : chunkAux 512 228773363 70938748956014091960320 = (1399912540, 73509583517459505217536) := by decide

set_option maxRecDepth 200000 in
set_option maxHeartbeats 20000000 in
theorem chunkBlock31 : chunkAux 512 1399912540 73509583517459505217536 = (1180716673, 75719554055754206937088) := by decide

set_option maxRecDepth 200000 in
set_option maxHeartbeats 20000000 in
theorem treeBlock4x0 : treeAux 4 608135816 = (2418066127, 2446937486868311179264) := by decide

set_option maxRecDepth 200000 in
set_option maxHeartbeats 20000000 in
theorem treeBlock4x1 : treeAux 4 2418066127 = (363444670, 2167563363524708139008) := by decide

set_option maxRecDepth 200000 in
set_option maxHeartbeats 20000000 in
theorem treeBlock4x2 : treeAux 4 363444670 = (4246376310, 2331338992939048894464) := by decide

set_option maxRecDepth 200000 in
set_option maxHeartbeats 20000000 in
theorem treeBlock4x3 : treeAux 4 4246376310 = (3226651615, 2400230115043452649472) := by decide

set_option maxRecDepth 200000 in
set_option maxHeartbeats 20000000 in
theorem treeBlock4x4 : treeAux 4 3226651615 = (1652164113, 2456864429154072264704) := by decide

set_option maxRecDepth 200000 in
set_option maxHeartbeats 20000000 in
theorem treeBlock4x5 : treeAux 4 1652164113 = (3391804821, 2424363298622007148544) := by decide

set_option maxRecDepth 200000 in
set_option maxHeartbeats 20000000 in
theorem treeBlock4x6 : treeAux 4 3391804821 = (2428635122, 2333846225550385348608) := by decide

set_option maxRecDepth 200000 in
set_option maxHeartbeats 20000000 in
theorem treeBlock4x7 : treeAux 4 2428635122 = (2220782646, 2495975892541777641472) := by decide

set_option maxRecDepth 200000 in
set_option maxHeartbeats 20000000 in
theorem treeBlock4x8 : treeAux 4 2220782646 = (3790497277, 2458701250639175876608) := by decide

set_option maxRecDepth 200000 in
set_option maxHeartbeats 20000000 in
theorem treeBlock4x9 : treeAux 4 3790497277 = (377896964, 2328870268462493073408) := by decide

set_option maxRecDepth 200000 in
set_option maxHeartbeats 20000000 in
theorem treeBlock4x10 : treeAux 4 377896964 = (585416949, 2373605846092172754944) := by decide

set_option maxRecDepth 200000 in
set_option maxHeartbeats 20000000 in
theorem treeBlock4x11 : treeAux 4 585416949 = (3581083522, 2282041753029417107456) := by decide

set_option maxRecDepth 200000 in
set_option maxHeartbeats 20000000 in
theorem treeBlock4x12 : treeAux 4 3581083522 = (564695229, 2363634015720372174848) := by decide

set_option maxRecDepth 200000 in
set_option maxHeartbeats 20000000 in
theorem treeBlock4x13 : treeAux 4 564695229 = (736627605, 2392624248470928621568) := by decide

set_option maxRecDepth 200000 in
set_option maxHeartbeats 20000000 in
theorem treeBlock4x14 : treeAux 4 736627605 = (2108258747, 2307279029339598094336) := by decide

set_option maxRecDepth 200000 in
set_option maxHeartbeats 20000000 in
theorem treeBlock4x15 : treeAux 4 2108258747 = (3963586613, 2345157004613302878208) := by decide

set_option maxRecDepth 200000 in
set_option maxHeartbeats 20000000 in
theorem treeBlock4x16 : treeAux 4 3963586613 = (3531047671, 2485826800268348489728) := by decide

set_option maxRecDepth 200000 in
set_option maxHeartbeats 20000000 in
theorem treeBlock4x17 : treeAux 4 3531047671 = (4018324306, 2233322718337155465216) := by decide

set_option maxRecDepth 200000 in
set_option maxHeartbeats 20000000 in
theorem treeBlock4x18 : treeAux 4 4018324306 = (3798140327, 2292508062529813741568) := by decide

set_option maxRecDepth 200000 in
set_option maxHeartbeats 20000000 in
theorem treeBlock4x19 : treeAux 4 3798140327 = (1134582020, 2221879588223891537920) := by decide

set_option maxRecDepth 200000 in
set_option maxHeartbeats 20000000 in
theorem treeBlock4x20 : treeAux 4 1134582020 = (2213346121, 2534303046338212790272) := by decide

set_option maxRecDepth 200000 in
set_option maxHeartbeats 20000000 in
theorem treeBlock4x21 : treeAux 4 2213346121 = (3530997980, 2345538118398883921920) := by decide

set_option maxRecDepth 200000 in
set_option maxHeartbeats 20000000 in
theorem treeBlock4x22 : treeAux 4 3530997980 = (3833678518, 2512221208265197879296) := by decide

set_option maxRecDepth 200000 in
set_option maxHeartbeats 20000000 in
theorem treeBlock4x23 : treeAux 4 3833678518 = (1197616415, 2189661693778753486848) := by decide

set_option maxRecDepth 200000 in
set_option maxHeartbeats 20000000 in
theorem treeBlock4x24 : treeAux 4 1197616415 = (2914196691, 2344555091779059712000) := by decide

set_option maxRecDepth 200000 in
set_option maxHeartbeats 20000000 in
theorem treeBlock4x25 : treeAux 4 2914196691 = (444437534, 2388086186072764579840) := by decide

set_option maxRecDepth 200000 in
set_option maxHeartbeats 20000000 in
theorem treeBlock4x26 : treeAux 4 444437534 = (2269139034, 2396147822307343597568) := by decide

set_option maxRecDepth 200000 in
set_option maxHeartbeats 20000000 in
theorem treeBlock4x27 : treeAux 4 2269139034 = (2347327700, 2326257930527946571776) := by decide

set_option maxRecDepth 200000 in
set_option maxHeartbeats 20000000 in
theorem treeBlock4x28 : treeAux 4 2347327700 = (4258737183, 2371132062780880846848) := by decide

set_option maxRecDepth 200000 in
set_option maxHeartbeats 20000000 in
theorem treeBlock4x29 : treeAux 4 4258737183 = (228773363, 2388275405794442739712) := by decide

set_option maxRecDepth 200000 in
set_option maxHeartbeats 20000000 in
theorem treeBlock4x30 : treeAux 4 228773363 = (1399912540, 2570834561445429510144) := by decide

set_option maxRecDepth 200000 in
set_option maxHeartbeats 20000000 in
theorem treeBlock4x31 : treeAux 4 1399912540 = (1180716673, 2209970538294711943168) := by decide

theorem treeBlock5x0 : treeAux 5 608135816 = (363444670, 4614500850393019318272) := by
  rw [show (5 : ℕ) = 4 + 1 from rfl, treeAux_succ]
  simp only [treeBlock4x0, treeBlock4x1]
  decide

theorem treeBlock5x1 : treeAux 5 363444670 = (3226651615, 4731569107982501281792) := by
  rw [show (5 : ℕ) = 4 + 1 from rfl, treeAux_succ]
  simp only [treeBlock4x2, treeBlock4x3]
  decide

theorem treeBlock5x2 : treeAux 5 3226651615 = (3391804821, 4881227727776079937536) := by
  rw [show (5 : ℕ) = 4 + 1 from rfl, treeAux_succ]
  simp only [treeBlock4x4, treeBlock4x5]
  decide

theorem treeBlock5x3 : treeAux 5 3391804821 = (2220782646, 4829822118092162990080) := by
  rw [show (5 : ℕ) = 4 + 1 from rfl, treeAux_succ]
  simp only [treeBlock4x6, treeBlock4x7]
  decide

theorem treeBlock5x4 : treeAux 5 2220782646 = (377896964, 4787571519101668950016) := by
  rw [show (5 : ℕ) = 4 + 1 from rfl, treeAux_succ]
  simp only [treeBlock4x8, treeBlock4x9]
  decide

theorem treeBlock5x5 : treeAux 5 377896964 = (3581083522, 4655647599121589600256) := by
  rw [show (5 : ℕ) = 4 + 1 from rfl, treeAux_succ]
  simp only [treeBlock4x10, treeBlock4x11]
  decide

theorem treeBlock5x6 : treeAux 5 3581083522 = (736627605, 4756258264191300796416) := by
  rw [show (5 : ℕ) = 4 + 1 from rfl, treeAux_succ]
  simp only [treeBlock4x12, treeBlock4x13]
  decide

theorem treeBlock5x7 : treeAux 5 736627605 = (3963586613, 4652436033952901234688) := by
  rw [show (5 : ℕ) = 4 + 1 from rfl, treeAux_succ]
  simp only [treeBlock4x14, treeBlock4x15]
  decide

theorem treeBlock5x8 : treeAux 5 3963586613 = (4018324306, 4719149518605504217088) := by
  rw [show (5 : ℕ) = 4 + 1 from rfl, treeAux_succ]
  simp only [treeBlock4x16, treeBlock4x17]
  decide

theorem treeBlock5x9 : treeAux 5 4018324306 = (1134582020, 4514387650753705541632) := by
  rw [show (5 : ℕ) = 4 + 1 from rfl, treeAux_succ]
  simp only [treeBlock4x18, treeBlock4x19]
  decide

theorem treeBlock5x10 : treeAux 5 1134582020 = (3530997980, 4879841164737097236480) := by
  rw [show (5 : ℕ) = 4 + 1 from rfl, treeAux_succ]
  simp only [treeBlock4x20, treeBlock4x21]
  decide

theorem treeBlock5x11 : treeAux 5 3530997980 = (1197616415, 4701882902043951104000) := by
  rw [show (5 : ℕ) = 4 + 1 from rfl, treeAux_succ]
  simp only [treeBlock4x22, treeBlock4x23]
  decide

theorem treeBlock5x12 : treeAux 5 1197616415 = (444437534, 4732641277851824291840) := by
  rw [show (5 : ℕ) = 4 + 1 from rfl, treeAux_succ]
  simp only [treeBlock4x24, treeBlock4x25]
  decide

theorem treeBlock5x13 : treeAux 5 444437534 = (2347327700, 4722405752835290431488) := by
  rw [show (5 : ℕ) = 4 + 1 from rfl, treeAux_succ]
  simp only [treeBlock4x26, treeBlock4x27]
  decide

theorem treeBlock5x14 : treeAux 5 2347327700 = (228773363, 4759407468575323062272) := by
  rw [show (5 : ℕ) = 4 + 1 from rfl, treeAux_succ]
  simp only [treeBlock4x28, treeBlock4x29]
  decide

theorem treeBlock5x15 : treeAux 5 228773363 = (1180716673, 4780805099740141191168) := by
  rw [show (5 : ℕ) = 4 + 1 from rfl, treeAux_succ]
  simp only [treeBlock4x30, treeBlock4x31]
  decide

theorem treeBlock6x0 : treeAux 6 608135816 = (3226651615, 9346069958375520600064) := by
  rw [show (6 : ℕ) = 5 + 1 from rfl, treeAux_succ]
  simp only [treeBlock5x0, treeBlock5x1]
  decide

theorem treeBlock6x1 : treeAux 6 3226651615 = (2220782646, 9711049845868242927616) := by
  rw [show (6 : ℕ) = 5 + 1 from rfl, treeAux_succ]
  simp only [treeBlock5x2, treeBlock5x3]
  decide

theorem treeBlock6x2 : treeAux 6 2220782646 = (3581083522, 9443219118223258550272) := by
  rw [show (6 : ℕ) = 5 + 1 from rfl, treeAux_succ]
  simp only [treeBlock5x4, treeBlock5x5]
  decide

theorem treeBlock6x3 : treeAux 6 3581083522 = (3963586613, 9408694298144202031104) := by
  rw [show (6 : ℕ) = 5 + 1 from rfl, treeAux_succ]
  simp only [treeBlock5x6, treeBlock5x7]
  decide

theorem treeBlock6x4 : treeAux 6 3963586613 = (1134582020, 9233537169359209758720) := by
  rw [show (6 : ℕ) = 5 + 1 from rfl, treeAux_succ]
  simp only [treeBlock5x8, treeBlock5x9]
  decide

theorem treeBlock6x5 : treeAux 6 1134582020 = (1197616415, 9581724066781048340480) := by
  rw [show (6 : ℕ) = 5 + 1 from rfl, treeAux_succ]
  simp only [treeBlock5x10, treeBlock5x11]
  decide

theorem treeBlock6x6 : treeAux 6 1197616415 = (2347327700, 9455047030687114723328) := by
  rw [show (6 : ℕ) = 5 + 1 from rfl, treeAux_succ]
  simp only [treeBlock5x12, treeBlock5x13]
  decide

theorem treeBlock6x7 : treeAux 6 2347327700 = (1180716673, 9540212568315463204864) := by
  rw [show (6 : ℕ) = 5 + 1 from rfl, treeAux_succ]
  simp only [treeBlock5x14, treeBlock5x15]
  decide

theorem treeBlock7x0 : treeAux 7 608135816 = (2220782646, 19057119804243763527680) := by
  rw [show (7 : ℕ) = 6 + 1 from rfl, treeAux_succ]
  simp only [treeBlock6x0, treeBlock6x1]
  decide

theorem treeBlock7x1 : treeAux 7 2220782646 = (3963586613, 18851913416367461629952) := by
  rw [show (7 : ℕ) = 6 + 1 from rfl, treeAux_succ]
  simp only [treeBlock6x2, treeBlock6x3]
  decide

theorem treeBlock7x2 : treeAux 7 3963586613 = (1197616415, 18815261236140259147776) := by
  rw [show (7 : ℕ) = 6 + 1 from rfl, treeAux_succ]
  simp only [treeBlock6x4, treeBlock6x5]
  decide

theorem treeBlock7x3 : treeAux 7 1197616415 = (1180716673, 18995259599002575831040) := by
  rw [show (7 : ℕ) = 6 + 1 from rfl, treeAux_succ]
  simp only [treeBlock6x6, treeBlock6x7]
  decide

theorem treeBlock8x0 : treeAux 8 608135816 = (3963586613, 37909033220611225157632) := by
  rw [show (8 : ℕ) = 7 + 1 from rfl, treeAux_succ]
  simp only [treeBlock7x0, treeBlock7x1]
  decide

theorem treeBlock8x1 : treeAux 8 3963586613 = (1180716673, 37810520835142839173120) := by
  rw [show (8 : ℕ) = 7 + 1 from rfl, treeAux_succ]
  simp only [treeBlock7x2, treeBlock7x3]
  decide

theorem treeBlock9x0 : treeAux 9 608135816 = (1180716673, 75719554055754072719360) := by
  rw [show (9 : ℕ) = 8 + 1 from rfl, treeAux_succ]
  simp only [treeBlock8x0, treeBlock8x1]
  decide

theorem chunkChain31 : chunkAux 512 1399912540 73509583517459505217536 = (1180716673, 75719554055754206937088) :=
  chunkBlock31

theorem chunkChain30 : chunkAux 1024 228773363 70938748956014091960320 = (1180716673, 75719554055754206937088) := by
  rw [show (1024 : ℕ) = 512 + 512 from rfl, chunkAux_add]
  simp only [chunkBlock30]
  exact chunkChain31

theorem chunkChain29 : chunkAux 1536 4258737183 68550473550219718950912 = (1180716673, 75719554055754206937088) := by
  rw [show (1536 : ℕ) = 512 + 1024 from rfl, chunkAux_add]
  simp only [chunkBlock29]
  exact chunkChain30

theorem chunkChain28 : chunkAux 2048 2347327700 66179341487438823424000 = (1180716673, 75719554055754206937088) := by
  rw [show (2048 : ℕ) = 512 + 1536 from rfl, chunkAux_add]
  simp only [chunkBlock28]
  exact chunkChain29

theorem chunkChain27 : chunkAux 2560 2269139034 63853083556910953660416 = (1180716673, 75719554055754206937088) := by
  rw [show (2560 : ℕ) = 512 + 2048 from rfl, chunkAux_add]
  simp only [chunkBlock27]
  exact chunkChain28

theorem chunkChain26 : chunkAux 3072 444437534 61456935734603551866880 = (1180716673, 75719554055754206937088) := by
  rw [show (3072 : ℕ) = 512 + 2560 from rfl, chunkAux_add]
  simp only [chunkBlock26]
  exact chunkChain27

theorem chunkChain25 : chunkAux 3584 2914196691 59068849548530804588544 = (1180716673, 75719554055754206937088) := by
  rw [show (3584 : ℕ) = 512 + 3072 from rfl, chunkAux_add]
  simp only [chunkBlock25]
  exact chunkChain26

theorem chunkChain24 : chunkAux 4096 1197616415 56724294456751706603520 = (1180716673, 75719554055754206937088) := by
  rw [show (4096 : ℕ) = 512 + 3584 from rfl, chunkAux_add]
  simp only [chunkBlock24]
  exact chunkChain25

theorem chunkChain23 : chunkAux 4608 3833678518 54534632762972940795904 = (1180716673, 75719554055754206937088) := by
  rw [show (4608 : ℕ) = 512 + 4096 from rfl, chunkAux_add]
  simp only [chunkBlock23]
  exact chunkChain24

theorem chunkChain22 : chunkAux 5120 3530997980 52022411554707688390656 = (1180716673, 75719554055754206937088) := by
  rw [show (5120 : ℕ) = 512 + 4608 from rfl, chunkAux_add]
  simp only [chunkBlock22]
  exact chunkChain23

theorem chunkChain21 : chunkAux 5632 2213346121 49676873436308713766912 = (1180716673, 75719554055754206937088) := by
  rw [show (5632 : ℕ) = 512 + 5120 from rfl, chunkAux_add]
  simp only [chunkBlock21]
  exact chunkChain22

theorem chunkChain20 : chunkAux 6144 1134582020 47142570389970500976640 = (1180716673, 75719554055754206937088) := by
  rw [show (6144 : ℕ) = 512 + 5632 from rfl, chunkAux_add]
  simp only [chunkBlock20]
  exact chunkChain21

theorem chunkChain19 : chunkAux 6656 3798140327 44920690801746596855808 = (1180716673, 75719554055754206937088) := by
  rw [show (6656 : ℕ) = 512 + 6144 from rfl, chunkAux_add]
  simp only [chunkBlock19]
  exact chunkChain20

theorem chunkChain18 : chunkAux 7168 4018324306 42628182739216775512064 = (1180716673, 75719554055754206937088) := by
  rw [show (7168 : ℕ) = 512 + 6656 from rfl, chunkAux_add]
  simp only [chunkBlock18]
  exact chunkChain19

theorem chunkChain17 : chunkAux 7680 3531047671 40394860020879669067776 = (1180716673, 75719554055754206937088) := by
  rw [show (7680 : ℕ) = 512 + 7168 from rfl, chunkAux_add]
  simp only [chunkBlock17]
  exact chunkChain18

theorem chunkChain16 : chunkAux 8192 3963586613 37909033220611376152576 = (1180716673, 75719554055754206937088) := by
  rw [show (8192 : ℕ) = 512 + 7680 from rfl, chunkAux_add]
  simp only [chunkBlock16]
  exact chunkChain17

theorem chunkChain15 : chunkAux 8704 2108258747 35563876215998027661312 = (1180716673, 75719554055754206937088) := by
  rw [show (8704 : ℕ) = 512 + 8192 from rfl, chunkAux_add]
  simp only [chunkBlock15]
  exact chunkChain16

theorem chunkChain14 : chunkAux 9216 736627605 33256597186658372157440 = (1180716673, 75719554055754206937088) := by
  rw [show (9216 : ℕ) = 512 + 8704 from rfl, chunkAux_add]
  simp only [chunkBlock14]
  exact chunkChain15

theorem chunkChain13 : chunkAux 9728 564695229 30863972938187454545920 = (1180716673, 75719554055754206937088) := by
  rw [show (9728 : ℕ) = 512 + 9216 from rfl, chunkAux_add]
  simp only [chunkBlock13]
  exact chunkChain14

theorem chunkChain12 : chunkAux 10240 3581083522 28500338922467050389504 = (1180716673, 75719554055754206937088) := by
  rw [show (10240 : ℕ) = 512 + 9728 from rfl, chunkAux_add]
  simp only [chunkBlock12]
  exact chunkChain13

theorem chunkChain11 : chunkAux 10752 585416949 26218297169437635117056 = (1180716673, 75719554055754206937088) := by
  rw [show (10752 : ℕ) = 512 + 10240 from rfl, chunkAux_add]
  simp only [chunkBlock11]
  exact chunkChain12

theorem chunkChain10 : chunkAux 11264 377896964 23844691323345453449216 = (1180716673, 75719554055754206937088) := by
  rw [show (11264 : ℕ) = 512 + 10752 from rfl, chunkAux_add]
  simp only [chunkBlock10]
  exact chunkChain11

theorem chunkChain9 : chunkAux 11776 3790497277 21515821054882960375808 = (1180716673, 75719554055754206937088) := by
  rw [show (11776 : ℕ) = 512 + 11264 from rfl, chunkAux_add]
  simp only [chunkBlock9]
  exact chunkChain10

theorem chunkChain8 : chunkAux 12288 2220782646 19057119804243763527680 = (1180716673, 75719554055754206937088) := by
  rw [show (12288 : ℕ) = 512 + 11776 from rfl, chunkAux_add]
  simp only [chunkBlock8]
  exact chunkChain9

theorem chunkChain7 : chunkAux 12800 2428635122 16561143911701976973312 = (1180716673, 75719554055754206937088) := by
  rw [show (12800 : ℕ) = 512 + 12288 from rfl, chunkAux_add]
  simp only [chunkBlock7]
  exact chunkChain8

theorem chunkChain6 : chunkAux 13312 3391804821 14227297686151596343296 = (1180716673, 75719554055754206937088) := by
  rw [show (13312 : ℕ) = 512 + 12800 from rfl, chunkAux_add]
  simp only [chunkBlock6]
  exact chunkChain7

theorem chunkChain5 : chunkAux 13824 1652164113 11802934387529614360576 = (1180716673, 75719554055754206937088) := by
  rw [show (13824 : ℕ) = 512 + 13312 from rfl, chunkAux_add]
  simp only [chunkBlock5]
  exact chunkChain6

theorem chunkChain4 : chunkAux 14336 3226651615 9346069958375531085824 = (1180716673, 75719554055754206937088) := by
  rw [show (14336 : ℕ) = 512 + 13824 from rfl, chunkAux_add]
  simp only [chunkBlock4]
  exact chunkChain5

theorem chunkChain3 : chunkAux 14848 4246376310 6945839843332073717760 = (1180716673, 75719554055754206937088) := by
  rw [show (14848 : ℕ) = 512 + 14336 from rfl, chunkAux_add]
  simp only [chunkBlock3]
  exact chunkChain4

theorem chunkChain2 : chunkAux 15360 363444670 4614500850393020891136 = (1180716673, 75719554055754206937088) := by
  rw [show (15360 : ℕ) = 512 + 14848 from rfl, chunkAux_add]
  simp only [chunkBlock2]
  exact chunkChain3

theorem chunkChain1 : chunkAux 15872 2418066127 2446937486868313276416 = (1180716673, 75719554055754206937088) := by
  rw [show (15872 : ℕ) = 512 + 15360 from rfl, chunkAux_add]
  simp only [chunkBlock1]
  exact chunkChain2

theorem chunkChain0 : chunkAux 16384 608135816 0 = (1180716673, 75719554055754206937088) := by
  rw [show (16384 : ℕ) = 512 + 15872 from rfl, chunkAux_add]
  simp only [chunkBlock0]
  exact chunkChain1


/-! ## Claim theorems -/

/-- C1 (counterexample): with seed `0x243f6a88`, vector length 16384 and
split threshold 32, the recursive parallel `dot_product` over `0..16384`
does **not** return the same `f64` scalar as the single-threaded direct
left-to-right computation of the dot product of the same two vectors: the
two results differ in the low bits of the significand. -/
theorem rust_dot_product_ne_direct :
    rust_dot_product ≠ dotRange VECTORS.1 VECTORS.2 0 VECTOR_LENGTH := by
  rw [rust_dot_product_eq_tree, direct_dot_eq_chunk,
    show xorshiftSeed = 608135816 from rfl, treeBlock9x0, chunkChain0]
  decide

/-- C1 (amended): the recursive parallel dot product is deterministic — it
returns the fixed scalar `75719554055754072719360` (`0x1.08c3e7725132p+76`)
regardless of how many subtasks are split off, since the split structure
depends only on the threshold — but that value differs from the
single-threaded direct left-to-right dot product, which is
`75719554055754206937088` (`0x1.08c3e772513ap+76`). -/
theorem rust_dot_product_values :
    rust_dot_product = 75719554055754072719360 ∧
    dotRange VECTORS.1 VECTORS.2 0 VECTOR_LENGTH = 75719554055754206937088 := by
  constructor
  · rw [rust_dot_product_eq_tree, show xorshiftSeed = 608135816 from rfl, treeBlock9x0]
  · rw [direct_dot_eq_chunk, show xorshiftSeed = 608135816 from rfl, chunkChain0]

/-- C2: on a freshly created pair, `send` with the success status 0 stores
exactly the sent value, and the subsequent `poll` returns the ready-value
status 1 with exactly that value written to the result buffer — for every
result type of the channel (in the program, `f64` and `String`) and every
value. -/
theorem send_poll_roundtrip (T : Type) (v : T) (m : String) (w : ℕ) :
    send (channel T) 0 v m = some (CellState.filled v) ∧
    poll (CellState.filled v) w = some ⟨1, some v, none, none, CellState.consumed⟩ :=
  ⟨rfl, rfl⟩

/-- C3: a second `send` on the same pair — whatever the status and second
value — is a fatal contract violation: it returns `none` (never returns
normally having stored the second value), and no new cell state is produced,
so the first stored completion (a value or an error) is never overwritten. -/
theorem double_send_fatal (T : Type) (v w : T) (m m' : String) (st : ℕ) :
    send (CellState.filled v) st w m' = none ∧
    send (CellState.failed m) st w m' = none :=
  ⟨rfl, rfl⟩

/-- C4: the ping-pong recursion started at `i = 0` — the future returned by
the cross-boundary entry point, with the Rust side recursing across the
boundary at `i + 1` while `i < 4` and appending `"ping "` at each level —
resolves to exactly `"ping ping ping ping "`, four repetitions of the single
token in nested order (the C++ half is modelled from the spec). -/
theorem ping_pong_result :
    cppcoro_ping_pong 0 = "ping ping ping ping " ∧
    rust_cppcoro_ping_pong 0 = "ping ping ping ping " := by
  have e4 : cppcoro_ping_pong 4 = "" := by
    rw [cppcoro_ping_pong, dif_neg (by norm_num)]
  have g3 : rust_cppcoro_ping_pong 3 = "ping " := by
    rw [rust_cppcoro_ping_pong, dif_pos (by norm_num),
      show (3 : ℤ) + 1 = 4 from by norm_num, e4]
    decide
  have e3 : cppcoro_ping_pong 3 = "ping " := by
    rw [cppcoro_ping_pong, dif_pos (by norm_num), g3]
  have g2 : rust_cppcoro_ping_pong 2 = "ping ping " := by
    rw [rust_cppcoro_ping_pong, dif_pos (by norm_num),
      show (2 : ℤ) + 1 = 3 from by norm_num, e3]
    decide
  have e2 : cppcoro_ping_pong 2 = "ping ping " := by
    rw [cppcoro_ping_pong, dif_pos (by norm_num), g2]
  have g1 : rust_cppcoro_ping_pong 1 = "ping ping ping " := by
    rw [rust_cppcoro_ping_pong, dif_pos (by norm_num),
      show (1 : ℤ) + 1 = 2 from by norm_num, e2]
    decide
  have e1 : cppcoro_ping_pong 1 = "ping ping ping " := by
    rw [cppcoro_ping_pong, dif_pos (by norm_num), g1]
  have g0 : rust_cppcoro_ping_pong 0 = "ping ping ping ping " := by
    rw [rust_cppcoro_ping_pong, dif_pos (by norm_num),
      show (0 : ℤ) + 1 = 1 from by norm_num, e1]
    decide
  have e0 : cppcoro_ping_pong 0 = "ping ping ping ping " := by
    rw [cppcoro_ping_pong, dif_pos (by norm_num), g0]
  exact ⟨e0, g0⟩

/-- C5: the body of `rust_not_product` fails immediately; completing the
channel from it marks the cell failed with the original message `"kapow"`,
and awaiting decodes the ready-error status into an error value carrying
exactly that message — never a successful default value (and the raw status
code is already decoded away by `awaitDecode`). -/
theorem rust_not_product_error (w : ℕ) :
    completeFallible rust_not_product_body = some (CellState.failed "kapow") ∧
    awaitDecode (CellState.failed "kapow" : CellState ℕ) w
      = some (Except.error ⟨"kapow"⟩) ∧
    ∀ v : ℕ, awaitDecode (CellState.failed "kapow" : CellState ℕ) w
      ≠ some (Except.ok v) := by
  refine ⟨rfl, rfl, ?_⟩
  intro v h
  rw [show awaitDecode (CellState.failed "kapow" : CellState ℕ) w
      = some (Except.error ⟨"kapow"⟩) from rfl] at h
  exact Except.noConfusion (Option.some.inj h)

/-- C6: whenever the range is longer than the split threshold 32,
`dot_product` splits it at the midpoint `(start + end) / 2` — which cuts the
range into two pieces whose lengths differ by at most one — computes the two
halves (one submitted to the pool, one inline; the value is independent of
that scheduling) and returns their `f64` sum; for ranges of length at most
32 it computes the partial dot product inline with no split. -/
theorem dot_product_split_structure (a b : List ℕ) (s e : ℕ) :
    (32 < e - s →
      dot_product a b s e
          = fadd (dot_product a b s ((s + e) / 2)) (dot_product a b ((s + e) / 2) e) ∧
        s < (s + e) / 2 ∧ (s + e) / 2 < e ∧
        (s + e) / 2 - s ≤ e - (s + e) / 2 ∧ e - (s + e) / 2 ≤ (s + e) / 2 - s + 1) ∧
    (e - s ≤ 32 → dot_product a b s e = dotRange a b s e) := by
  constructor
  · intro h
    refine ⟨?_, by omega, by omega, by omega, by omega⟩
    rw [dot_product, dif_pos (show SPLIT_LIMIT < e - s from h)]
  · intro h
    rw [dot_product, dif_neg (show ¬ SPLIT_LIMIT < e - s from by
      show ¬ 32 < e - s
      omega)]

/-- Witness for C6 at the concrete ranges `0..40` (split) and `0..5`
(inline). -/
theorem dot_product_split_structure_witness :
    (dot_product [] [] 0 40
        = fadd (dot_product [] [] 0 ((0 + 40) / 2)) (dot_product [] [] ((0 + 40) / 2) 40) ∧
      0 < (0 + 40) / 2 ∧ (0 + 40) / 2 < 40 ∧
      (0 + 40) / 2 - 0 ≤ 40 - (0 + 40) / 2 ∧ 40 - (0 + 40) / 2 ≤ (0 + 40) / 2 - 0 + 1) ∧
    dot_product [] [] 0 5 = dotRange [] [] 0 5 :=
  ⟨(dot_product_split_structure [] [] 0 40).1 (by decide),
    (dot_product_split_structure [] [] 0 5).2 (by decide)⟩

/-- C7: `poll` only ever returns the status codes 0 (pending), 1
(ready-value) or 2 (ready-error), and `send` interprets its status argument
as exactly 0 = success-with-value and 1 = failure — any other status is a
contract violation, not a stored completion. -/
theorem status_codes (T : Type) (v : T) (m : String) (st : CellState T) (w : ℕ)
    (s : ℕ) (hs : 2 ≤ s) :
    (∀ r : PollReturn T, poll st w = some r →
      r.status = 0 ∨ r.status = 1 ∨ r.status = 2) ∧
    send CellState.empty 0 v m = some (CellState.filled v) ∧
    send CellState.empty 1 v m = some (CellState.failed m) ∧
    send CellState.empty s v m = none := by
  refine ⟨?_, rfl, rfl, ?_⟩
  · intro r hr
    cases st with
    | empty =>
      have hr' : some (⟨0, none, none, some w, CellState.empty⟩ : PollReturn T) = some r := hr
      injection hr' with hc
      exact Or.inl (by rw [← hc])
    | filled v' =>
      have hr' : some (⟨1, some v', none, none, CellState.consumed⟩ : PollReturn T) = some r := hr
      injection hr' with hc
      exact Or.inr (Or.inl (by rw [← hc]))
    | failed m' =>
      have hr' : some (⟨2, none, some m', none, CellState.consumed⟩ : PollReturn T) = some r := hr
      injection hr' with hc
      exact Or.inr (Or.inr (by rw [← hc]))
    | consumed => exact Option.noConfusion hr
  · obtain ⟨t, rfl⟩ : ∃ t, s = t + 2 := ⟨s - 2, by omega⟩
    rfl

/-- Witness for C7 at the result type `ℕ`, a failed cell, and status 2. -/
theorem status_codes_witness :
    ((⟨2, none, some "boom", none, CellState.consumed⟩ : PollReturn ℕ).status = 0 ∨
      (⟨2, none, some "boom", none, CellState.consumed⟩ : PollReturn ℕ).status = 1 ∨
      (⟨2, none, some "boom", none, CellState.consumed⟩ : PollReturn ℕ).status = 2) ∧
    send CellState.empty 0 (7 : ℕ) "boom" = some (CellState.filled 7) ∧
    send CellState.empty 1 (7 : ℕ) "boom" = some (CellState.failed "boom") ∧
    send CellState.empty 2 (7 : ℕ) "boom" = none :=
  let h := status_codes ℕ 7 "boom" (CellState.failed "boom") 5 2 (by decide)
  ⟨h.1 ⟨2, none, some "boom", none, CellState.consumed⟩ rfl, h.2.1, h.2.2.1, h.2.2.2⟩

/-- C9: for every range with `start ≤ end`, the length subtraction cannot
underflow (`(end - start) + start = end` holds in ℕ), and whenever the
length exceeds 32 the midpoint `(start + end) / 2` lies strictly between
`start` and `end`, so both recursive calls of `dot_product` — whose split
equation is restated here — receive strictly shorter ranges and the
recursion is well-founded on the range length. -/
theorem dot_product_termination_measure (s e : ℕ) (hse : s ≤ e) (h : 32 < e - s) :
    (e - s) + s = e ∧
    s < (s + e) / 2 ∧ (s + e) / 2 < e ∧
    (s + e) / 2 - s < e - s ∧ e - (s + e) / 2 < e - s ∧
    ∀ a b : List ℕ,
      dot_product a b s e
        = fadd (dot_product a b s ((s + e) / 2)) (dot_product a b ((s + e) / 2) e) := by
  refine ⟨by omega, by omega, by omega, by omega, by omega, ?_⟩
  intro a b
  rw [dot_product, dif_pos (show SPLIT_LIMIT < e - s from h)]

/-- Witness for C9 at the concrete range `0..100`. -/
theorem dot_product_termination_measure_witness :
    (100 - 0) + 0 = 100 ∧
    0 < (0 + 100) / 2 ∧ (0 + 100) / 2 < 100 ∧
    (0 + 100) / 2 - 0 < 100 - 0 ∧ 100 - (0 + 100) / 2 < 100 - 0 ∧
    ∀ a b : List ℕ,
      dot_product a b 0 100
        = fadd (dot_product a b 0 ((0 + 100) / 2)) (dot_product a b ((0 + 100) / 2) 100) :=
  dot_product_termination_measure 0 100 (by decide) (by decide)

/-- C10: the two vectors are interleaved samples of a single xorshift32
stream started from `0x243f6a88`, not two independent streams: both have
length exactly 16384, and for every `k < 16384`, `vector_a[k]` is (the exact
`f64` conversion of) the `(2k+1)`-st output and `vector_b[k]` the
`(2k+2)`-nd output of the stream. -/
theorem VECTORS_interleaved :
    VECTORS.1.length = 16384 ∧ VECTORS.2.length = 16384 ∧
    ∀ k : ℕ, k < 16384 →
      VECTORS.1[k]? = some (output (2 * k + 1)) ∧
      VECTORS.2[k]? = some (output (2 * k + 2)) := by
  refine ⟨(buildVectors_length 16384 xorshiftSeed).1,
    (buildVectors_length 16384 xorshiftSeed).2, ?_⟩
  intro k hk
  exact buildVectors_get 16384 xorshiftSeed k hk

/-- Witness for C10 at index 2. -/
theorem VECTORS_interleaved_witness :
    VECTORS.1[2]? = some (output 5) ∧ VECTORS.2[2]? = some (output 6) :=
  VECTORS_interleaved.2.2 2 (by decide)

end CppcoroExample
